import Mathlib

/-
Verification development for the escrow program (src/lib.rs, src/instruction.rs,
src/state.rs, src/processor.rs, src/entrypoint.rs).

Shallow embedding conventions:
  * `Pubkey` values and program identities are modelled as `Nat`.
  * `u64` values are modelled as `Nat`; where the source performs unchecked
    u64 arithmetic the reduction modulo 2^64 is written explicitly
    (release-profile wrapping semantics); `checked_add` is modelled by
    `checkedAdd`, which fails with `ArithmeticOverflow` exactly when the
    mathematical sum leaves the u64 range.
  * Byte buffers are `List Nat` (each entry a byte value).
  * Fallible Rust code returning `Result<_, ProgramError>` becomes
    `Except ProgramError _`.  A Rust panic (an abort that is not a typed
    `ProgramError`) is modelled as `Option.none` in functions whose
    codomain is wrapped in `Option`.
  * Host collaborators (program-derived-address derivation, the system
    program, the rent sysvar) are not part of src/; they are modelled from
    the spec as explicit parameters (`DeriveCtx`, `systemCreateAccount`,
    the `rentExempt` argument).
-/

namespace EscrowProgram

/-- The u64 value range bound: unchecked u64 additions in the source wrap
modulo this constant, and `checked_add` fails at it. -/
def U64LIMIT : Nat := 2 ^ 64

/-- Wrapping u64 addition, the semantics of the unchecked `+` on `u64` in a
release build (used by the source only for `rent_exemp + amount` in
`process_initialize_escrow`). -/
def wrapAdd (a b : Nat) : Nat := (a + b) % U64LIMIT

/-- Wrapping u64 subtraction, the semantics of the unchecked `-` on `u64` in a
release build (used by the source only for
`escrow_account.lamports() - rent_exemp` in `process_complete_escrow`). -/
def wrapSub (a b : Nat) : Nat := (a + (U64LIMIT - b % U64LIMIT)) % U64LIMIT

/-- The typed errors the program can return (the constructors of
`solana_program::program_error::ProgramError` this code base uses, plus
`AccountAlreadyInUse` for the system collaborator's creation failure). -/
inductive ProgramError where
  | InvalidInstructionData
  | InsufficientFunds
  | IncorrectProgramId
  | ArithmeticOverflow
  | InvalidAccountData
  | UninitializedAccount
  | NotEnoughAccountKeys
  | AccountAlreadyInUse
deriving DecidableEq

/-- Rust `u64::checked_add(...).ok_or(ProgramError::ArithmeticOverflow)`:
the sum when it stays in the u64 range, the overflow error otherwise. -/
def checkedAdd (a b : Nat) : Except ProgramError Nat :=
  if a + b < U64LIMIT then .ok (a + b) else .error .ArithmeticOverflow

/-- `EscrowInstruction` from src/instruction.rs. -/
inductive EscrowInstruction where
  | Initialize (amount : Nat)
  | Complete
  | Close
deriving DecidableEq

/-- Little-endian byte decoding, `u64::from_le_bytes` on an 8-byte buffer. -/
def leBytesToNat (bytes : List Nat) : Nat :=
  bytes.foldr (fun b acc => b + 256 * acc) 0

/-- `EscrowInstruction::unpack` from src/instruction.rs.  The source begins
with `data.split_at(1)`, which panics (aborts, `none` here) when `data` is
empty.  `rest.try_into()` into `[u8; 8]` succeeds exactly when `rest` has
length 8, otherwise the handler maps the failure to
`InvalidInstructionData`; discriminants other than 0, 1, 2 also fail with
`InvalidInstructionData`. -/
def EscrowInstruction.unpack (data : List Nat) :
    Option (Except ProgramError EscrowInstruction) :=
  match data with
  | [] => none
  | instrType :: rest =>
    some <|
      match instrType with
      | 0 =>
        if rest.length = 8 then
          .ok (.Initialize (leBytesToNat rest))
        else
          .error .InvalidInstructionData
      | 1 => .ok .Complete
      | 2 => .ok .Close
      | _ => .error .InvalidInstructionData

/-- `EscrowAccount` from src/state.rs: the 2-byte persisted escrow record. -/
structure EscrowAccountRec where
  isInitialized : Bool
  bump : Nat
deriving DecidableEq

/-- `EscrowAccount::LEN = 2` from src/state.rs. -/
def EscrowAccountRec.LEN : Nat := 2

/-- `EscrowAccount::new` from src/state.rs. -/
def EscrowAccountRec.new (bump : Nat) : EscrowAccountRec :=
  ⟨true, bump⟩

/-- `EscrowAccount::pack_into_slice` from src/state.rs:
`dst.copy_from_slice(&[self.is_initialized as u8, self.bump])` panics
(`none`) unless `dst` has length 2, and otherwise overwrites `dst` with the
2-byte record image. -/
def packIntoSlice (a : EscrowAccountRec) (dst : List Nat) : Option (List Nat) :=
  if dst.length = 2 then
    some [if a.isInitialized then 1 else 0, a.bump]
  else
    none

/-- `EscrowAccount::unpack_from_slice` from src/state.rs: reads `src[0]` and
`src[1]` (panicking, `none`, when fewer than 2 bytes are present — its
callers check the length first), mapping byte 0 to the flag via
`if src[0] == 1` and byte 1 to the bump. -/
def unpackFromSlice (src : List Nat) : Option EscrowAccountRec :=
  match src with
  | s0 :: s1 :: _ => some ⟨s0 == 1, s1⟩
  | _ => none

/-- Modelled from the spec: `solana_program::program_pack::Pack::unpack`, the
collaborator wrapper the processor calls on the escrow record.  It rejects a
buffer whose length is not `LEN` (storage-format error) and a record whose
initialized flag is clear, and otherwise returns the decoded record. -/
def EscrowAccountRec.unpackChecked (src : List Nat) :
    Except ProgramError EscrowAccountRec :=
  if src.length ≠ EscrowAccountRec.LEN then
    .error .InvalidAccountData
  else
    match unpackFromSlice src with
    | some r => if r.isInitialized then .ok r else .error .UninitializedAccount
    | none => .error .InvalidAccountData

/-- A ledger account as the handlers observe it: address, balance, storage
bytes, and owning program. -/
structure Account where
  key : Nat
  lamports : Nat
  data : List Nat
  owner : Nat
deriving DecidableEq

/-- Modelled from the spec: the system program's identity (the collaborator
`solana_program::system_program::ID`), an arbitrary distinguished address. -/
def systemProgramID : Nat := 0

/-- The program identity declared by `declare_id!` in src/lib.rs
("E6v3tbZyZAthzd5JCPJgd3TmLXL3VirKxib9XHjyKTjL"), as the integer value of
its 32 decoded bytes. -/
def crateID : Nat :=
  88052268243820197953484785570704439675264245267763518621076905143286581105871

/-- Modelled from the spec: the host collaborator's deterministic address
derivation.  `findProgramAddress` is `Pubkey::find_program_address` over the
seeds (domain tag, payer identity, recipient identity) under a program
identity, returning the derived address and its canonical bump;
`createProgramAddress` is `Pubkey::create_program_address` over the same
seeds extended with an explicit bump, which can itself fail. -/
structure DeriveCtx where
  findProgramAddress : Nat → Nat → Nat → Nat × Nat
  createProgramAddress : Nat → Nat → Nat → Nat → Except ProgramError Nat

/-- `check_provided_pda` from src/lib.rs: re-derive the expected address from
(payer, recipient, bump) under `crate::ID`, propagate a derivation failure,
and fail with `InvalidInstructionData` when the supplied escrow address
differs from the derived one. -/
def checkProvidedPda (ctx : DeriveCtx) (payerKey recipientKey escrowKey bump : Nat) :
    Except ProgramError Unit :=
  match ctx.createProgramAddress crateID payerKey recipientKey bump with
  | .error e => .error e
  | .ok expectedPda =>
    if escrowKey ≠ expectedPda then
      .error .InvalidInstructionData
    else
      .ok ()

/-- Modelled from the spec: the system collaborator's account-creation
primitive (`system_instruction::create_account` through `invoke_signed`).
It fails when the target address already holds state, debits the payer by
the funding amount (failing when the payer cannot cover it), and then the
target exists with the funding balance, `space` zeroed storage bytes, and
the requested owner. -/
def systemCreateAccount (payer escrow : Account) (totalAmount space ownerId : Nat) :
    Except ProgramError (Account × Account) :=
  if escrow.lamports ≠ 0 ∨ escrow.data.length ≠ 0 then
    .error .AccountAlreadyInUse
  else if payer.lamports < totalAmount then
    .error .InsufficientFunds
  else
    .ok ({ payer with lamports := payer.lamports - totalAmount },
         { escrow with
             lamports := totalAmount
             data := List.replicate space 0
             owner := ownerId })

/-- `Processor::_process_close_escrow` from src/processor.rs (also
`EscrowInstruction::close_account` in src/instruction.rs, a verbatim
duplicate): credit `lamports` to the payer with checked addition, zero the
escrow balance, reassign the escrow to the system program, and reallocate
its storage to length 0. -/
def processCloseEscrowHelper (payer escrow : Account) (lamports : Nat) :
    Except ProgramError (Account × Account) :=
  match checkedAdd payer.lamports lamports with
  | .error e => .error e
  | .ok payerLamports =>
    .ok ({ payer with lamports := payerLamports },
         { escrow with lamports := 0, owner := systemProgramID, data := [] })

/-- `Processor::process_initialize_escrow` from src/processor.rs.  Account
order: payer, recipient, escrow target, system program (fewer accounts fail
like `next_account_info`, with `NotEnoughAccountKeys`).  `rentExempt` is the
collaborator query `Rent::get()?.minimum_balance(EscrowAccount::LEN)`.  The
funding amount `rent_exemp + amount` is an unchecked u64 addition in the
source, hence `wrapAdd` here.  The record write after a successful creation
uses `pack_into_slice`; the `none` fallback is unreachable because the
created account holds exactly `LEN = 2` bytes. -/
def processInitializeEscrow (ctx : DeriveCtx) (programId : Nat)
    (accounts : List Account) (amount rentExempt : Nat) :
    Except ProgramError (List Account) :=
  if amount < rentExempt then
    .error .InsufficientFunds
  else
    match accounts with
    | payer :: recipient :: escrow :: sysAccount :: rest =>
      let derived := ctx.findProgramAddress programId payer.key recipient.key
      if derived.1 ≠ escrow.key then
        .error .InvalidInstructionData
      else
        let totalAmount := wrapAdd rentExempt amount
        match systemCreateAccount payer escrow totalAmount EscrowAccountRec.LEN programId with
        | .error e => .error e
        | .ok (payer', escrow') =>
          let escrowData :=
            match packIntoSlice (EscrowAccountRec.new derived.2) escrow'.data with
            | some d => d
            | none => escrow'.data
          .ok (payer' :: recipient :: { escrow' with data := escrowData } :: sysAccount :: rest)
    | _ => .error .NotEnoughAccountKeys

/-- `Processor::process_complete_escrow` from src/processor.rs.  Account
order: payer, recipient, escrow.  Owner check, record decode, derived
address check, then the locked amount `lamports - rent_exemp` (unchecked u64
subtraction, hence `wrapSub`) is credited to the recipient with checked
addition, and the escrow is closed toward the payer with the exemption
minimum. -/
def processCompleteEscrow (ctx : DeriveCtx) (programId : Nat)
    (accounts : List Account) (rentExempt : Nat) :
    Except ProgramError (List Account) :=
  match accounts with
  | payer :: recipient :: escrow :: rest =>
    if escrow.owner ≠ programId then
      .error .IncorrectProgramId
    else
      match EscrowAccountRec.unpackChecked escrow.data with
      | .error e => .error e
      | .ok escrowInstance =>
        match checkProvidedPda ctx payer.key recipient.key escrow.key escrowInstance.bump with
        | .error e => .error e
        | .ok _ =>
          let lockedAmount := wrapSub escrow.lamports rentExempt
          match checkedAdd recipient.lamports lockedAmount with
          | .error e => .error e
          | .ok recipientLamports =>
            let recipient' := { recipient with lamports := recipientLamports }
            match processCloseEscrowHelper payer escrow rentExempt with
            | .error e => .error e
            | .ok (payer', escrow') => .ok (payer' :: recipient' :: escrow' :: rest)
  | _ => .error .NotEnoughAccountKeys

/-- `Processor::process_close_escrow` from src/processor.rs.  Same owner,
record and derived-address checks as the complete handler, then the whole
current escrow balance is paid to the payer through the close helper. -/
def processCloseEscrow (ctx : DeriveCtx) (programId : Nat)
    (accounts : List Account) (_rentExempt : Nat) :
    Except ProgramError (List Account) :=
  match accounts with
  | payer :: recipient :: escrow :: rest =>
    if escrow.owner ≠ programId then
      .error .IncorrectProgramId
    else
      match EscrowAccountRec.unpackChecked escrow.data with
      | .error e => .error e
      | .ok escrowInstance =>
        match checkProvidedPda ctx payer.key recipient.key escrow.key escrowInstance.bump with
        | .error e => .error e
        | .ok _ =>
          let totalAmount := escrow.lamports
          match processCloseEscrowHelper payer escrow totalAmount with
          | .error e => .error e
          | .ok (payer', escrow') => .ok (payer' :: recipient :: escrow' :: rest)
  | _ => .error .NotEnoughAccountKeys

/-- `Processor::process` from src/processor.rs: decode the instruction bytes
(aborting, `none`, when the codec panics on an empty buffer) and dispatch to
the matching handler. -/
def process (ctx : DeriveCtx) (programId : Nat) (accounts : List Account)
    (data : List Nat) (rentExempt : Nat) :
    Option (Except ProgramError (List Account)) :=
  match EscrowInstruction.unpack data with
  | none => none
  | some (.error e) => some (.error e)
  | some (.ok (.Initialize amount)) =>
    some (processInitializeEscrow ctx programId accounts amount rentExempt)
  | some (.ok .Complete) => some (processCompleteEscrow ctx programId accounts rentExempt)
  | some (.ok .Close) => some (processCloseEscrow ctx programId accounts rentExempt)

/-- The host's atomicity rule (spec §5): a failed invocation is discarded
whole, so the committed account list is the handler's output on success and
the untouched input on error. -/
def commit (accounts : List Account) (result : Except ProgramError (List Account)) :
    List Account :=
  match result with
  | .ok accounts' => accounts'
  | .error _ => accounts

/-- A concrete derivation collaborator used to instantiate witnesses: a
deterministic stand-in for the host's address derivation where the derived
address for any input pair is 100 with canonical bump 255. -/
def demoCtx : DeriveCtx where
  findProgramAddress := fun _ _ _ => (100, 255)
  createProgramAddress := fun _ _ _ _ => .ok 100

lemma U64LIMIT_eq : U64LIMIT = 18446744073709551616 := by norm_num [U64LIMIT]

lemma checkedAdd_ok {a b c : Nat} (h : checkedAdd a b = .ok c) : c = a + b := by
  unfold checkedAdd at h
  split at h
  · exact (Except.ok.inj h).symm
  · exact absurd h (by simp)

lemma checkedAdd_overflow {a b : Nat} (h : U64LIMIT ≤ a + b) :
    checkedAdd a b = .error .ArithmeticOverflow := by
  unfold checkedAdd
  rw [if_neg (by omega)]

lemma wrapSub_eq_sub {a b : Nat} (hba : b ≤ a) (ha : a < U64LIMIT) :
    wrapSub a b = a - b := by
  simp only [wrapSub, U64LIMIT_eq] at *
  omega

lemma closeHelper_ok {payer escrow : Account} {lamports : Nat} {p e : Account}
    (h : processCloseEscrowHelper payer escrow lamports = .ok (p, e)) :
    p = { payer with lamports := payer.lamports + lamports }
    ∧ e = { escrow with lamports := 0, owner := systemProgramID, data := [] } := by
  unfold processCloseEscrowHelper at h
  cases hca : checkedAdd payer.lamports lamports with
  | error e0 =>
    rw [hca] at h
    exact absurd h (by simp)
  | ok payerLamports =>
    rw [hca] at h
    have hpl := checkedAdd_ok hca
    obtain ⟨hp, he⟩ := Prod.mk.injEq .. ▸ Except.ok.inj h
    subst hpl
    exact ⟨hp.symm ▸ rfl, he.symm ▸ rfl⟩

lemma systemCreateAccount_ok {payer escrow : Account} {t s oId : Nat} {p e : Account}
    (h : systemCreateAccount payer escrow t s oId = .ok (p, e)) :
    p = { payer with lamports := payer.lamports - t }
    ∧ e = { escrow with lamports := t, data := List.replicate s 0, owner := oId } := by
  unfold systemCreateAccount at h
  split at h
  · exact absurd h (by simp)
  · split at h
    · exact absurd h (by simp)
    · obtain ⟨hp, he⟩ := Prod.mk.injEq .. ▸ Except.ok.inj h
      exact ⟨hp.symm, he.symm⟩

/-- C7: instruction decoding maps discriminant byte 0 with a little-endian
u64 payload to Initialize with that amount, failing with
InvalidInstructionData when fewer than 8 payload bytes remain; maps
discriminant 1 to Complete and discriminant 2 to Close with trailing bytes
ignored; and fails with InvalidInstructionData for any other discriminant
byte. -/
theorem C7_instruction_decoding :
    (∀ rest : List Nat, rest.length = 8 →
      EscrowInstruction.unpack (0 :: rest)
        = some (.ok (.Initialize (leBytesToNat rest))))
    ∧ (∀ rest : List Nat, rest.length < 8 →
      EscrowInstruction.unpack (0 :: rest)
        = some (.error .InvalidInstructionData))
    ∧ (∀ rest : List Nat,
      EscrowInstruction.unpack (1 :: rest) = some (.ok .Complete))
    ∧ (∀ rest : List Nat,
      EscrowInstruction.unpack (2 :: rest) = some (.ok .Close))
    ∧ (∀ (d : Nat) (rest : List Nat), 3 ≤ d →
      EscrowInstruction.unpack (d :: rest)
        = some (.error .InvalidInstructionData)) := by
  refine ⟨?_, ?_, ?_, ?_, ?_⟩
  · intro rest h
    simp [EscrowInstruction.unpack, h]
  · intro rest h
    simp [EscrowInstruction.unpack, show rest.length ≠ 8 by omega]
  · intro rest
    rfl
  · intro rest
    rfl
  · intro d rest h
    obtain ⟨k, rfl⟩ : ∃ k, d = k + 3 := ⟨d - 3, by omega⟩
    rfl

/-- C7 witness: the decoder evaluated at one concrete buffer per branch. -/
theorem C7_instruction_decoding_witness :
    EscrowInstruction.unpack [0, 1, 0, 0, 0, 0, 0, 0, 0]
      = some (.ok (.Initialize (leBytesToNat [1, 0, 0, 0, 0, 0, 0, 0])))
    ∧ EscrowInstruction.unpack [0, 1, 2] = some (.error .InvalidInstructionData)
    ∧ EscrowInstruction.unpack [1, 7, 7] = some (.ok .Complete)
    ∧ EscrowInstruction.unpack [2, 9] = some (.ok .Close)
    ∧ EscrowInstruction.unpack [5] = some (.error .InvalidInstructionData) :=
  ⟨C7_instruction_decoding.1 [1, 0, 0, 0, 0, 0, 0, 0] rfl,
   C7_instruction_decoding.2.1 [1, 2] (by decide),
   C7_instruction_decoding.2.2.1 [7, 7],
   C7_instruction_decoding.2.2.2.1 [9],
   C7_instruction_decoding.2.2.2.2 5 [] (by decide)⟩

/-- C8 counterexample: on the empty buffer the decoder does not return a
typed result at all — `data.split_at(1)` aborts, modelled as `none` — so
decoding is not total on every input byte buffer. -/
theorem C8_counterexample_empty_buffer :
    EscrowInstruction.unpack [] = none := rfl

/-- C8 (amended): instruction decoding is side-effect-free and total on
every nonempty byte buffer, returning either a decoded operation or a typed
error; on the empty buffer the initial split-at-1 aborts with an
out-of-bounds panic rather than a typed error. -/
theorem C8_amended_total_on_nonempty :
    ∀ (b : Nat) (rest : List Nat),
      (EscrowInstruction.unpack (b :: rest)).isSome = true := by
  intro b rest
  rfl

/-- C8 amended witness: the decoder evaluated on a concrete nonempty
buffer returns a typed result. -/
theorem C8_amended_total_on_nonempty_witness :
    (EscrowInstruction.unpack [1]).isSome = true :=
  C8_amended_total_on_nonempty 1 []

/-- C9: packing the escrow record with initialized flag set and bump b into
its 2-byte storage layout and unpacking it back yields the same record, for
every bump value b in 0..=255. -/
theorem C9_pack_unpack_round_trip (b : Nat) (dst out : List Nat)
    (_hb : b ≤ 255)
    (hpack : packIntoSlice (EscrowAccountRec.new b) dst = some out) :
    unpackFromSlice out = some (EscrowAccountRec.new b) := by
  unfold packIntoSlice at hpack
  split at hpack
  · obtain rfl := Option.some.inj hpack
    simp [unpackFromSlice, EscrowAccountRec.new]
  · exact absurd hpack (by simp)

/-- C9 witness: the round trip evaluated at bump 7 on a 2-byte buffer. -/
theorem C9_pack_unpack_round_trip_witness :
    (7 : Nat) ≤ 255
    ∧ unpackFromSlice [1, 7] = some (EscrowAccountRec.new 7) :=
  ⟨by decide, C9_pack_unpack_round_trip 7 [0, 0] [1, 7] (by decide) rfl⟩

/-- C10: a buffer whose discriminant byte is 0 is rejected with
InvalidInstructionData whenever the number of remaining bytes differs from
exactly 8 — in particular more than 8 trailing bytes — even though trailing
bytes are ignored for Complete and Close. -/
theorem C10_reject_wrong_length_payload :
    (∀ rest : List Nat, rest.length ≠ 8 →
      EscrowInstruction.unpack (0 :: rest)
        = some (.error .InvalidInstructionData))
    ∧ (∀ rest : List Nat,
      EscrowInstruction.unpack (1 :: rest) = some (.ok .Complete))
    ∧ (∀ rest : List Nat,
      EscrowInstruction.unpack (2 :: rest) = some (.ok .Close)) := by
  refine ⟨?_, fun _ => rfl, fun _ => rfl⟩
  intro rest h
  simp [EscrowInstruction.unpack, h]

/-- C10 witness: an Initialize buffer with 9 payload bytes is rejected,
while the same trailing bytes are ignored after discriminants 1 and 2. -/
theorem C10_reject_wrong_length_payload_witness :
    EscrowInstruction.unpack [0, 1, 2, 3, 4, 5, 6, 7, 8, 9]
      = some (.error .InvalidInstructionData)
    ∧ EscrowInstruction.unpack [1, 1, 2, 3, 4, 5, 6, 7, 8, 9]
      = some (.ok .Complete)
    ∧ EscrowInstruction.unpack [2, 1, 2, 3, 4, 5, 6, 7, 8, 9]
      = some (.ok .Close) :=
  ⟨C10_reject_wrong_length_payload.1 [1, 2, 3, 4, 5, 6, 7, 8, 9] (by decide),
   C10_reject_wrong_length_payload.2.1 [1, 2, 3, 4, 5, 6, 7, 8, 9],
   C10_reject_wrong_length_payload.2.2 [1, 2, 3, 4, 5, 6, 7, 8, 9]⟩

/-- C3: an initialize invocation with requested amount strictly below the
storage-exemption minimum for the 2-byte record fails with
InsufficientFunds, and the committed account state is unchanged (no account
created, no account mutated). -/
theorem C3_underfunded_init (ctx : DeriveCtx) (programId : Nat)
    (accounts : List Account) (amount rentExempt : Nat)
    (h : amount < rentExempt) :
    processInitializeEscrow ctx programId accounts amount rentExempt
      = .error .InsufficientFunds
    ∧ commit accounts (processInitializeEscrow ctx programId accounts amount rentExempt)
      = accounts := by
  have hrun : processInitializeEscrow ctx programId accounts amount rentExempt
      = .error .InsufficientFunds := by
    unfold processInitializeEscrow
    rw [if_pos h]
  refine ⟨hrun, ?_⟩
  rw [hrun]
  rfl

/-- C3 witness: amount 4 below minimum 5 is rejected with no state change. -/
theorem C3_underfunded_init_witness :
    (4 : Nat) < 5
    ∧ (processInitializeEscrow demoCtx crateID [] 4 5 = .error .InsufficientFunds
       ∧ commit [] (processInitializeEscrow demoCtx crateID [] 4 5) = []) :=
  ⟨by decide, C3_underfunded_init demoCtx crateID [] 4 5 (by decide)⟩

/-- C1: a successful complete invocation on an escrow with pre-invocation
balance B at least the exemption minimum R credits the recipient exactly
B − R, credits the payer exactly R, and leaves the escrow with balance 0 and
storage length 0. -/
theorem C1_complete_balance_conservation (ctx : DeriveCtx)
    (programId rentExempt : Nat) (payer recipient escrow : Account)
    (rest tail : List Account) (p r e : Account)
    (hrun : processCompleteEscrow ctx programId
        (payer :: recipient :: escrow :: rest) rentExempt
      = .ok (p :: r :: e :: tail))
    (hR : rentExempt ≤ escrow.lamports)
    (hB : escrow.lamports < U64LIMIT) :
    r.lamports = recipient.lamports + (escrow.lamports - rentExempt)
    ∧ p.lamports = payer.lamports + rentExempt
    ∧ e.lamports = 0
    ∧ e.data.length = 0 := by
  simp only [processCompleteEscrow] at hrun
  split at hrun
  · exact absurd hrun (by simp)
  split at hrun
  · exact absurd hrun (by simp)
  rename_i escrowInstance hunp
  split at hrun
  · exact absurd hrun (by simp)
  rename_i u hpda
  split at hrun
  · exact absurd hrun (by simp)
  rename_i recipientLamports hca
  split at hrun
  · exact absurd hrun (by simp)
  rename_i payer' escrow' hch
  obtain ⟨hp', he'⟩ := closeHelper_ok hch
  have hrl := checkedAdd_ok hca
  rw [wrapSub_eq_sub hR hB] at hrl
  have hlist := Except.ok.inj hrun
  obtain ⟨hp, hr, he, ht⟩ :
      payer' = p
      ∧ { recipient with lamports := recipientLamports } = r
      ∧ escrow' = e ∧ rest = tail := by
    simpa using hlist
  refine ⟨?_, ?_, ?_, ?_⟩
  · rw [← hr]
    exact hrl
  · rw [← hp, hp']
  · rw [← he, he']
  · rw [← he, he']
    rfl

/-- C1 witness: a concrete successful complete run with B = 890882 and
R = 890880: the recipient gains 2, the payer gains 890880, and the escrow
ends empty. -/
theorem C1_complete_balance_conservation_witness :
    (⟨2, 7, [], 0⟩ : Account).lamports = 5 + (890882 - 890880)
    ∧ (⟨1, 890890, [], 0⟩ : Account).lamports = 10 + 890880
    ∧ (⟨100, 0, [], 0⟩ : Account).lamports = 0
    ∧ (⟨100, 0, ([] : List Nat), 0⟩ : Account).data.length = 0 :=
  C1_complete_balance_conservation demoCtx crateID 890880
    ⟨1, 10, [], 0⟩ ⟨2, 5, [], 0⟩ ⟨100, 890882, [1, 255], crateID⟩ [] []
    ⟨1, 890890, [], 0⟩ ⟨2, 7, [], 0⟩ ⟨100, 0, [], 0⟩
    (by rfl) (by decide) (by decide)

/-- C2: a successful close invocation on an escrow with pre-invocation
balance B credits the payer exactly B, leaves the recipient unchanged, and
leaves the escrow with balance 0, storage length 0, and owner reassigned to
the system program. -/
theorem C2_close_balance_conservation (ctx : DeriveCtx)
    (programId rentExempt : Nat) (payer recipient escrow : Account)
    (rest tail : List Account) (p r e : Account)
    (hrun : processCloseEscrow ctx programId
        (payer :: recipient :: escrow :: rest) rentExempt
      = .ok (p :: r :: e :: tail)) :
    p.lamports = payer.lamports + escrow.lamports
    ∧ r = recipient
    ∧ e.lamports = 0
    ∧ e.data.length = 0
    ∧ e.owner = systemProgramID := by
  simp only [processCloseEscrow] at hrun
  split at hrun
  · exact absurd hrun (by simp)
  split at hrun
  · exact absurd hrun (by simp)
  rename_i escrowInstance hunp
  split at hrun
  · exact absurd hrun (by simp)
  rename_i u hpda
  split at hrun
  · exact absurd hrun (by simp)
  rename_i payer' escrow' hch
  obtain ⟨hp', he'⟩ := closeHelper_ok hch
  have hlist := Except.ok.inj hrun
  obtain ⟨hp, hr, he, ht⟩ :
      payer' = p ∧ recipient = r ∧ escrow' = e ∧ rest = tail := by
    simpa using hlist
  refine ⟨?_, hr.symm, ?_, ?_, ?_⟩
  · rw [← hp, hp']
  · rw [← he, he']
  · rw [← he, he']
    rfl
  · rw [← he, he']

/-- C2 witness: a concrete successful close run with B = 890882: the payer
gains 890882, the recipient is untouched, and the escrow ends empty and
system-owned. -/
theorem C2_close_balance_conservation_witness :
    (⟨1, 890892, [], 0⟩ : Account).lamports = 10 + 890882
    ∧ (⟨2, 5, [], 0⟩ : Account) = ⟨2, 5, [], 0⟩
    ∧ (⟨100, 0, [], 0⟩ : Account).lamports = 0
    ∧ (⟨100, 0, ([] : List Nat), 0⟩ : Account).data.length = 0
    ∧ (⟨100, 0, [], 0⟩ : Account).owner = systemProgramID :=
  C2_close_balance_conservation demoCtx crateID 890880
    ⟨1, 10, [], 0⟩ ⟨2, 5, [], 0⟩ ⟨100, 890882, [1, 255], crateID⟩ [] []
    ⟨1, 890892, [], 0⟩ ⟨2, 5, [], 0⟩ ⟨100, 0, [], 0⟩
    (by rfl)

/-- C4: within the initialize handler (past its amount precondition), a
supplied escrow address different from the address derived from the domain
tag, payer and recipient under the program identity fails with
InvalidInstructionData; and when the system-level account creation fails,
its error is surfaced unmodified and the committed state is unchanged, so
the escrow record is never written without a successful creation. -/
theorem C4_init_pda_check_and_write_order (ctx : DeriveCtx) (programId : Nat)
    (payer recipient escrow sysAccount : Account) (rest : List Account)
    (amount rentExempt : Nat) (hamt : rentExempt ≤ amount) :
    ((ctx.findProgramAddress programId payer.key recipient.key).1 ≠ escrow.key →
      processInitializeEscrow ctx programId
          (payer :: recipient :: escrow :: sysAccount :: rest) amount rentExempt
        = .error .InvalidInstructionData)
    ∧ (∀ err : ProgramError,
        (ctx.findProgramAddress programId payer.key recipient.key).1 = escrow.key →
        systemCreateAccount payer escrow (wrapAdd rentExempt amount)
            EscrowAccountRec.LEN programId = .error err →
        processInitializeEscrow ctx programId
            (payer :: recipient :: escrow :: sysAccount :: rest) amount rentExempt
          = .error err
        ∧ commit (payer :: recipient :: escrow :: sysAccount :: rest)
            (processInitializeEscrow ctx programId
              (payer :: recipient :: escrow :: sysAccount :: rest) amount rentExempt)
          = payer :: recipient :: escrow :: sysAccount :: rest) := by
  have h1 : ¬ amount < rentExempt := Nat.not_lt.mpr hamt
  refine ⟨fun hne => ?_, fun err hkey hcreate => ?_⟩
  · simp [processInitializeEscrow, h1, hne]
  · have hrun : processInitializeEscrow ctx programId
        (payer :: recipient :: escrow :: sysAccount :: rest) amount rentExempt
        = .error err := by
      simp [processInitializeEscrow, h1, hkey, hcreate]
    refine ⟨hrun, ?_⟩
    rw [hrun]
    rfl

/-- C4 witness: with the demo derivation, escrow address 99 mismatches the
derived 100 and is rejected; at the matching address 100 a creation failure
(the address already holds balance) is surfaced as AccountAlreadyInUse. -/
theorem C4_init_pda_check_and_write_order_witness :
    processInitializeEscrow demoCtx crateID
        [⟨1, 50, [], 0⟩, ⟨2, 0, [], 0⟩, ⟨99, 0, [], 0⟩, ⟨0, 1, [], 0⟩] 10 5
      = .error .InvalidInstructionData
    ∧ (processInitializeEscrow demoCtx crateID
         [⟨1, 50, [], 0⟩, ⟨2, 0, [], 0⟩, ⟨100, 3, [], 0⟩, ⟨0, 1, [], 0⟩] 10 5
       = .error .AccountAlreadyInUse
       ∧ commit [⟨1, 50, [], 0⟩, ⟨2, 0, [], 0⟩, ⟨100, 3, [], 0⟩, ⟨0, 1, [], 0⟩]
           (processInitializeEscrow demoCtx crateID
             [⟨1, 50, [], 0⟩, ⟨2, 0, [], 0⟩, ⟨100, 3, [], 0⟩, ⟨0, 1, [], 0⟩] 10 5)
         = [⟨1, 50, [], 0⟩, ⟨2, 0, [], 0⟩, ⟨100, 3, [], 0⟩, ⟨0, 1, [], 0⟩]) :=
  ⟨(C4_init_pda_check_and_write_order demoCtx crateID
      ⟨1, 50, [], 0⟩ ⟨2, 0, [], 0⟩ ⟨99, 0, [], 0⟩ ⟨0, 1, [], 0⟩ [] 10 5
      (by decide)).1 (by decide),
   (C4_init_pda_check_and_write_order demoCtx crateID
      ⟨1, 50, [], 0⟩ ⟨2, 0, [], 0⟩ ⟨100, 3, [], 0⟩ ⟨0, 1, [], 0⟩ [] 10 5
      (by decide)).2 .AccountAlreadyInUse rfl rfl⟩

/-- C5: for the complete and the close handlers, a non-program escrow owner
fails with IncorrectProgramId regardless of the record contents; with the
owner correct and the record decoded, a re-derived address different from
the escrow's actual address fails with InvalidInstructionData; and in every
such failing case the committed account state — in particular every
balance — is unchanged. -/
theorem C5_owner_and_pda_checks (ctx : DeriveCtx) (programId rentExempt : Nat)
    (payer recipient escrow : Account) (rest : List Account) :
    (escrow.owner ≠ programId →
      processCompleteEscrow ctx programId
          (payer :: recipient :: escrow :: rest) rentExempt
        = .error .IncorrectProgramId
      ∧ processCloseEscrow ctx programId
          (payer :: recipient :: escrow :: rest) rentExempt
        = .error .IncorrectProgramId
      ∧ commit (payer :: recipient :: escrow :: rest)
          (processCompleteEscrow ctx programId
            (payer :: recipient :: escrow :: rest) rentExempt)
        = payer :: recipient :: escrow :: rest
      ∧ commit (payer :: recipient :: escrow :: rest)
          (processCloseEscrow ctx programId
            (payer :: recipient :: escrow :: rest) rentExempt)
        = payer :: recipient :: escrow :: rest)
    ∧ (∀ (escrowInstance : EscrowAccountRec) (expectedPda : Nat),
        escrow.owner = programId →
        EscrowAccountRec.unpackChecked escrow.data = .ok escrowInstance →
        ctx.createProgramAddress crateID payer.key recipient.key
            escrowInstance.bump = .ok expectedPda →
        escrow.key ≠ expectedPda →
        processCompleteEscrow ctx programId
            (payer :: recipient :: escrow :: rest) rentExempt
          = .error .InvalidInstructionData
        ∧ processCloseEscrow ctx programId
            (payer :: recipient :: escrow :: rest) rentExempt
          = .error .InvalidInstructionData
        ∧ commit (payer :: recipient :: escrow :: rest)
            (processCompleteEscrow ctx programId
              (payer :: recipient :: escrow :: rest) rentExempt)
          = payer :: recipient :: escrow :: rest
        ∧ commit (payer :: recipient :: escrow :: rest)
            (processCloseEscrow ctx programId
              (payer :: recipient :: escrow :: rest) rentExempt)
          = payer :: recipient :: escrow :: rest) := by
  constructor
  · intro hne
    have hc : processCompleteEscrow ctx programId
        (payer :: recipient :: escrow :: rest) rentExempt
        = .error .IncorrectProgramId := by
      simp [processCompleteEscrow, hne]
    have hk : processCloseEscrow ctx programId
        (payer :: recipient :: escrow :: rest) rentExempt
        = .error .IncorrectProgramId := by
      simp [processCloseEscrow, hne]
    exact ⟨hc, hk, by rw [hc]; rfl, by rw [hk]; rfl⟩
  · intro escrowInstance expectedPda howner hunp hcpa hne
    have hpda : checkProvidedPda ctx payer.key recipient.key escrow.key
        escrowInstance.bump = .error .InvalidInstructionData := by
      simp [checkProvidedPda, hcpa, hne]
    have hc : processCompleteEscrow ctx programId
        (payer :: recipient :: escrow :: rest) rentExempt
        = .error .InvalidInstructionData := by
      simp [processCompleteEscrow, howner, hunp, hpda]
    have hk : processCloseEscrow ctx programId
        (payer :: recipient :: escrow :: rest) rentExempt
        = .error .InvalidInstructionData := by
      simp [processCloseEscrow, howner, hunp, hpda]
    exact ⟨hc, hk, by rw [hc]; rfl, by rw [hk]; rfl⟩

/-- C5 witness: concrete rejected runs — an escrow owned by 9 under program
identity 7 is rejected with IncorrectProgramId, and an escrow at address 55
whose record re-derives to address 100 is rejected with
InvalidInstructionData — in both cases committing no change. -/
theorem C5_owner_and_pda_checks_witness :
    (processCompleteEscrow demoCtx 7
        [⟨1, 4, [], 0⟩, ⟨2, 6, [], 0⟩, ⟨100, 5, [1, 255], 9⟩] 3
      = .error .IncorrectProgramId
     ∧ processCloseEscrow demoCtx 7
        [⟨1, 4, [], 0⟩, ⟨2, 6, [], 0⟩, ⟨100, 5, [1, 255], 9⟩] 3
      = .error .IncorrectProgramId
     ∧ commit [⟨1, 4, [], 0⟩, ⟨2, 6, [], 0⟩, ⟨100, 5, [1, 255], 9⟩]
        (processCompleteEscrow demoCtx 7
          [⟨1, 4, [], 0⟩, ⟨2, 6, [], 0⟩, ⟨100, 5, [1, 255], 9⟩] 3)
      = [⟨1, 4, [], 0⟩, ⟨2, 6, [], 0⟩, ⟨100, 5, [1, 255], 9⟩]
     ∧ commit [⟨1, 4, [], 0⟩, ⟨2, 6, [], 0⟩, ⟨100, 5, [1, 255], 9⟩]
        (processCloseEscrow demoCtx 7
          [⟨1, 4, [], 0⟩, ⟨2, 6, [], 0⟩, ⟨100, 5, [1, 255], 9⟩] 3)
      = [⟨1, 4, [], 0⟩, ⟨2, 6, [], 0⟩, ⟨100, 5, [1, 255], 9⟩])
    ∧ (processCompleteEscrow demoCtx 7
        [⟨1, 4, [], 0⟩, ⟨2, 6, [], 0⟩, ⟨55, 5, [1, 255], 7⟩] 3
      = .error .InvalidInstructionData
     ∧ processCloseEscrow demoCtx 7
        [⟨1, 4, [], 0⟩, ⟨2, 6, [], 0⟩, ⟨55, 5, [1, 255], 7⟩] 3
      = .error .InvalidInstructionData
     ∧ commit [⟨1, 4, [], 0⟩, ⟨2, 6, [], 0⟩, ⟨55, 5, [1, 255], 7⟩]
        (processCompleteEscrow demoCtx 7
          [⟨1, 4, [], 0⟩, ⟨2, 6, [], 0⟩, ⟨55, 5, [1, 255], 7⟩] 3)
      = [⟨1, 4, [], 0⟩, ⟨2, 6, [], 0⟩, ⟨55, 5, [1, 255], 7⟩]
     ∧ commit [⟨1, 4, [], 0⟩, ⟨2, 6, [], 0⟩, ⟨55, 5, [1, 255], 7⟩]
        (processCloseEscrow demoCtx 7
          [⟨1, 4, [], 0⟩, ⟨2, 6, [], 0⟩, ⟨55, 5, [1, 255], 7⟩] 3)
      = [⟨1, 4, [], 0⟩, ⟨2, 6, [], 0⟩, ⟨55, 5, [1, 255], 7⟩]) :=
  ⟨(C5_owner_and_pda_checks demoCtx 7 3
      ⟨1, 4, [], 0⟩ ⟨2, 6, [], 0⟩ ⟨100, 5, [1, 255], 9⟩ []).1 (by decide),
   (C5_owner_and_pda_checks demoCtx 7 3
      ⟨1, 4, [], 0⟩ ⟨2, 6, [], 0⟩ ⟨55, 5, [1, 255], 7⟩ []).2
     ⟨true, 255⟩ 100 rfl rfl rfl (by decide)⟩

/-- C6 counterexample: the initialize handler computes the funding amount
`rent_exemp + amount` with an unchecked u64 addition.  At exemption minimum
890880 and amount 2^64 − 1 the mathematical sum leaves the u64 range, yet
the handler does not fail with ArithmeticOverflow: it succeeds and funds the
escrow with the wrapped value 890879. -/
theorem C6_counterexample_unchecked_funding_sum :
    U64LIMIT ≤ 890880 + 18446744073709551615
    ∧ processInitializeEscrow demoCtx crateID
        [⟨1, 1000000, [], 0⟩, ⟨2, 0, [], 0⟩, ⟨100, 0, [], 0⟩, ⟨0, 1, [], 0⟩]
        18446744073709551615 890880
      = .ok [⟨1, 109121, [], 0⟩, ⟨2, 0, [], 0⟩,
             ⟨100, 890879, [1, 255], crateID⟩, ⟨0, 1, [], 0⟩] :=
  ⟨by norm_num [U64LIMIT], by rfl⟩

/-- C6 (amended): the balance credits in the complete and close handlers —
the recipient credit in complete and the payer credit in the shared close
primitive — use overflow-checked addition and fail with ArithmeticOverflow
whenever the sum leaves the u64 range, never wrapping; the initialize
handler's funding amount `storage_exemption_minimum + amount`, however, is
an unchecked addition that wraps modulo 2^64: a successful initialize funds
the escrow with the wrapped sum and overflow there is never signalled as
ArithmeticOverflow. -/
theorem C6_amended_checked_credits :
    (∀ (payer escrow : Account) (lamports : Nat),
      U64LIMIT ≤ payer.lamports + lamports →
      processCloseEscrowHelper payer escrow lamports
        = .error .ArithmeticOverflow)
    ∧ (∀ (ctx : DeriveCtx) (programId rentExempt : Nat)
        (payer recipient escrow : Account) (rest : List Account)
        (escrowInstance : EscrowAccountRec),
      escrow.owner = programId →
      EscrowAccountRec.unpackChecked escrow.data = .ok escrowInstance →
      checkProvidedPda ctx payer.key recipient.key escrow.key
          escrowInstance.bump = .ok () →
      U64LIMIT ≤ recipient.lamports + wrapSub escrow.lamports rentExempt →
      processCompleteEscrow ctx programId
          (payer :: recipient :: escrow :: rest) rentExempt
        = .error .ArithmeticOverflow)
    ∧ (∀ (ctx : DeriveCtx) (programId : Nat)
        (payer recipient escrow sysAccount : Account) (rest : List Account)
        (amount rentExempt : Nat) (p r e s : Account) (tail : List Account),
      processInitializeEscrow ctx programId
          (payer :: recipient :: escrow :: sysAccount :: rest) amount rentExempt
        = .ok (p :: r :: e :: s :: tail) →
      e.lamports = wrapAdd rentExempt amount) := by
  refine ⟨?_, ?_, ?_⟩
  · intro payer escrow lamports h
    unfold processCloseEscrowHelper
    rw [checkedAdd_overflow h]
  · intro ctx programId rentExempt payer recipient escrow rest
      escrowInstance howner hunp hcpa hover
    simp [processCompleteEscrow, howner, hunp, hcpa, checkedAdd_overflow hover]
  · intro ctx programId payer recipient escrow sysAccount rest
      amount rentExempt p r e s tail hrun
    simp only [processInitializeEscrow] at hrun
    split at hrun
    · exact absurd hrun (by simp)
    split at hrun
    · exact absurd hrun (by simp)
    split at hrun
    · exact absurd hrun (by simp)
    rename_i payer' escrow' hcreate
    obtain ⟨hp', he'⟩ := systemCreateAccount_ok hcreate
    simp only [Except.ok.injEq, List.cons.injEq] at hrun
    obtain ⟨hp, hr, he, hs, ht⟩ := hrun
    rw [← he, he']

/-- C6 amended witness: the close primitive overflows a payer holding
2^64 − 1 at a 1-lamport credit; a complete run whose recipient holds
2^64 − 1 fails with ArithmeticOverflow; and a successful initialize with
amount equal to the minimum 890880 funds the escrow with
wrapAdd 890880 890880 = 1781760. -/
theorem C6_amended_checked_credits_witness :
    processCloseEscrowHelper ⟨1, 18446744073709551615, [], 0⟩ ⟨2, 0, [], 0⟩ 1
      = .error .ArithmeticOverflow
    ∧ processCompleteEscrow demoCtx 7
        [⟨1, 0, [], 0⟩, ⟨2, 18446744073709551615, [], 0⟩, ⟨100, 5, [1, 255], 7⟩] 3
      = .error .ArithmeticOverflow
    ∧ (⟨100, 1781760, [1, 255], crateID⟩ : Account).lamports
      = wrapAdd 890880 890880 :=
  ⟨C6_amended_checked_credits.1 ⟨1, 18446744073709551615, [], 0⟩ ⟨2, 0, [], 0⟩ 1
     (by norm_num [U64LIMIT]),
   C6_amended_checked_credits.2.1 demoCtx 7 3
     ⟨1, 0, [], 0⟩ ⟨2, 18446744073709551615, [], 0⟩ ⟨100, 5, [1, 255], 7⟩ []
     ⟨true, 255⟩ rfl rfl rfl (by norm_num [U64LIMIT, wrapSub]),
   C6_amended_checked_credits.2.2 demoCtx crateID
     ⟨1, 2000000, [], 0⟩ ⟨2, 0, [], 0⟩ ⟨100, 0, [], 0⟩ ⟨0, 1, [], 0⟩ []
     890880 890880
     ⟨1, 218240, [], 0⟩ ⟨2, 0, [], 0⟩ ⟨100, 1781760, [1, 255], crateID⟩
     ⟨0, 1, [], 0⟩ [] (by rfl)⟩

end EscrowProgram
